import Mathlib

/-
Shallow embedding of the circu-metal-flow LCA dashboard.
Numbers of the TypeScript source are modelled as exact rationals;
the JavaScript function Math.round is modelled as floor (x + 1/2),
which agrees with it on all finite values.
-/

-- Data model (src/components/LCADashboard.tsx)

inductive Metal
| aluminum
| copper
deriving DecidableEq

inductive MaterialSource
| primary
| recycled
deriving DecidableEq

inductive EnergySource
| coal
| grid
| renewables
deriving DecidableEq

inductive TransportMode
| truck
| rail
| ship
deriving DecidableEq

inductive EndOfLife
| landfill
| recycling
deriving DecidableEq

inductive ScenarioType
| conventional
| circular
deriving DecidableEq

structure LCAInputs where
  metal : Metal
  materialSource : MaterialSource
  energySource : EnergySource
  transportMode : TransportMode
  transportDistance : ℚ
  endOfLife : EndOfLife
  quantity : ℚ
deriving DecidableEq

structure LCAScenario where
  name : String
  type : ScenarioType
  inputs : LCAInputs
deriving DecidableEq

-- KPI calculation (src/components/KPIDashboard.tsx, calculateKPIs)

structure BaseProfile where
  co2 : ℚ
  energy : ℚ
  water : ℚ
deriving DecidableEq

def baseValues : Metal → BaseProfile
| .aluminum => { co2 := 11.9, energy := 170, water := 1550 }
| .copper => { co2 := 4.2, energy := 65, water := 440 }

def energyFactors : EnergySource → ℚ
| .coal => 1.5
| .grid => 1.0
| .renewables => 0.1

/-- Math.round of JavaScript: floor of x + 1/2. -/
def jsRound (x : ℚ) : ℤ := ⌊x + 1/2⌋

/-- Round to 2 decimals, as Math.round (x * 100) / 100 in the source. -/
def round2 (x : ℚ) : ℚ := (jsRound (x * 100) : ℚ) / 100

structure KPIRaw where
  co2Footprint : ℚ
  energyUse : ℚ
  waterUse : ℚ
deriving DecidableEq

/-- Lines 34 to 63 of KPIDashboard.tsx: the three quantity-scaled
KPI values before the final rounding in the return statement. -/
def calculateRawKPIs (s : LCAScenario) : KPIRaw :=
  let inputs := s.inputs
  let base := baseValues inputs.metal
  let co2Multiplier1 : ℚ := if inputs.materialSource = .recycled then 1 * 0.15 else 1
  let energyMultiplier : ℚ := if inputs.materialSource = .recycled then 1 * 0.05 else 1
  let waterMultiplier : ℚ := if inputs.materialSource = .recycled then 1 * 0.3 else 1
  let co2Multiplier := co2Multiplier1 * energyFactors inputs.energySource
  let transportEmissions := inputs.transportDistance * 0.0001
  let endOfLifeBonus : ℚ := if inputs.endOfLife = .recycling then 0.8 else 1.0
  { co2Footprint := (base.co2 * co2Multiplier + transportEmissions) * endOfLifeBonus * inputs.quantity / 1000
    energyUse := base.energy * energyMultiplier * inputs.quantity / 1000
    waterUse := base.water * waterMultiplier * inputs.quantity / 1000 }

structure KPIData where
  co2Footprint : ℚ
  energyUse : ℚ
  recycledContent : ℚ
  waterUse : ℚ
  circularityIndex : ℚ
  costSavings : ℚ
deriving DecidableEq

/-- calculateKPIs of KPIDashboard.tsx: rounds the raw values and adds
the three constant outputs. -/
def calculateKPIs (s : LCAScenario) : KPIData :=
  let raw := calculateRawKPIs s
  { co2Footprint := round2 raw.co2Footprint
    energyUse := round2 raw.energyUse
    recycledContent := if s.inputs.materialSource = .recycled then 85 else 0
    waterUse := round2 raw.waterUse
    circularityIndex := if s.type = .circular then 75 else 25
    costSavings := if s.inputs.materialSource = .recycled then 1250 else 0 }

-- Flow generation (src/components/SankeyVisualization.tsx, generateFlowData)

inductive FlowType
| primary
| recycled
| energy
| transport
| waste
| circular
deriving DecidableEq

/-- FlowData of SankeyVisualization.tsx; the fields from and to of the
source are named fromStage and toStage (from is a reserved word), and
the purely presentational icon field is dropped. -/
structure FlowData where
  fromStage : String
  toStage : String
  value : ℚ
  type : FlowType
deriving DecidableEq

def energySourceName : EnergySource → String
| .coal => "coal"
| .grid => "grid"
| .renewables => "renewables"

def generateFlowData (s : LCAScenario) : List FlowData :=
  let inputs := s.inputs
  let baseQuantity := inputs.quantity / 1000
  let materialFlows : List FlowData :=
    if inputs.materialSource = .primary then
      [{ fromStage := "Raw Materials", toStage := "Production",
         value := baseQuantity, type := .primary }]
    else
      [{ fromStage := "Recycled Materials", toStage := "Production",
         value := baseQuantity * 0.85, type := .recycled },
       { fromStage := "Raw Materials", toStage := "Production",
         value := baseQuantity * 0.15, type := .primary }]
  let energyAmount := if inputs.metal = .aluminum then baseQuantity * 15 else baseQuantity * 6
  let energyFlow : FlowData :=
    { fromStage := energySourceName inputs.energySource ++ " Energy",
      toStage := "Production", value := energyAmount, type := .energy }
  let transportFlow : FlowData :=
    { fromStage := "Production", toStage := "Distribution",
      value := baseQuantity, type := .transport }
  let useFlow : FlowData :=
    { fromStage := "Distribution", toStage := "Use Phase",
      value := baseQuantity, type := .primary }
  let eolFlows : List FlowData :=
    if inputs.endOfLife = .recycling then
      [{ fromStage := "Use Phase", toStage := "Recycling",
         value := baseQuantity * 0.9, type := .circular },
       { fromStage := "Use Phase", toStage := "Waste",
         value := baseQuantity * 0.1, type := .waste },
       { fromStage := "Recycling", toStage := "Recycled Materials",
         value := baseQuantity * 0.85, type := .circular }]
    else
      [{ fromStage := "Use Phase", toStage := "Waste",
         value := baseQuantity, type := .waste }]
  materialFlows ++ [energyFlow, transportFlow, useFlow] ++ eolFlows

-- Input validation (src/components/UserInputModule.tsx)

/-- The errors record of UserInputModule.tsx, restricted to the two keys
validateInputs can set; the empty string means no message, matching the
falsy check used by the rendering code. -/
structure FieldErrors where
  quantity : String
  transportDistance : String
deriving DecidableEq

def validateInputs (inputs : LCAInputs) : FieldErrors :=
  let qErr := if inputs.quantity ≤ 0 then "Quantity must be greater than 0" else ""
  let dErrNeg := if inputs.transportDistance < 0 then "Distance cannot be negative" else ""
  let dErr := if inputs.transportDistance > 10000 then "Distance seems unrealistic (>10,000 km)" else dErrNeg
  { quantity := qErr, transportDistance := dErr }

/-- The boolean result of validateInputs: true when no error key was set. -/
def validationPasses (inputs : LCAInputs) : Bool :=
  validateInputs inputs = { quantity := "", transportDistance := "" }

/-- handleSubmit of UserInputModule.tsx: the first component records
whether onRunLCA is invoked, the second the errors state after the call. -/
def handleSubmit (inputs : LCAInputs) : Bool × FieldErrors :=
  (validationPasses inputs, validateInputs inputs)

inductive InputField
| quantity
| transportDistance
deriving DecidableEq

/-- The error-clearing part of updateInput: when the edited key holds a
truthy message it is reset to the empty string. -/
def updateInputErrors (errors : FieldErrors) (field : InputField) : FieldErrors :=
  match field with
  | .quantity =>
      if errors.quantity ≠ "" then { errors with quantity := "" } else errors
  | .transportDistance =>
      if errors.transportDistance ≠ "" then { errors with transportDistance := "" } else errors

-- Report generator (src/unnamed/part_001, ReportGenerator)

structure ReportPanelState where
  isGenerating : Bool
  reportGenerated : Bool
deriving DecidableEq

inductive ReportView
| idle
| generating
| generated
deriving DecidableEq

/-- What the panel renders: the reportGenerated branch is checked first,
as in the JSX; there is no error view in the component. -/
def reportView (s : ReportPanelState) : ReportView :=
  if s.reportGenerated then .generated
  else if s.isGenerating then .generating
  else .idle

def initialReportState : ReportPanelState :=
  { isGenerating := false, reportGenerated := false }

/-- The setIsGenerating true at the top of handleGenerateReport. -/
def startGenerateReport (s : ReportPanelState) : ReportPanelState :=
  { s with isGenerating := true }

/-- handleGenerateReport of part_001 run to completion: the try branch
(fetch resolved) and the catch branch (fetch threw) both wait the fixed
delay and set reportGenerated, and the finally clause clears
isGenerating. -/
def runGenerateReport (fetchSucceeds : Bool) (s : ReportPanelState) : ReportPanelState :=
  let s1 := startGenerateReport s
  let s2 :=
    if fetchSucceeds then { s1 with reportGenerated := true }
    else { s1 with reportGenerated := true }
  { s2 with isGenerating := false }

/-- The Generate New Report button: setReportGenerated false. -/
def generateNewReport (s : ReportPanelState) : ReportPanelState :=
  { s with reportGenerated := false }

-- Scenario selector impact preview (src/unnamed/part_000, getImpactPreview)

structure ImpactPreview where
  recycledContent : ℚ
  co2Reduction : ℚ
  energySavings : ℚ
deriving DecidableEq

def getImpactPreview (s : LCAScenario) : ImpactPreview :=
  let isCircular := s.type = ScenarioType.circular
  let recycledContent : ℚ := if s.inputs.materialSource = .recycled then 85 else 0
  let co2Reduction : ℚ := if isCircular then 65 else 0
  { recycledContent := recycledContent
    co2Reduction := co2Reduction
    energySavings := if isCircular then 45 else 0 }


-- Definitions supporting the claim statements

/-- The materialSource part of the compound co2 multiplier, as the spec
states it: 0.15 for recycled, 1 for primary. -/
def sourceCo2Multiplier : MaterialSource → ℚ
| .recycled => 0.15
| .primary => 1

/-- The end-of-life factor as the spec states it: 0.8 for recycling,
1.0 for landfill. -/
def endOfLifeFactor : EndOfLife → ℚ
| .recycling => 0.8
| .landfill => 1.0

/-- The flow edges feeding material into Production: edges into the
Production stage other than the energy edge. -/
def materialInputEdges (s : LCAScenario) : List FlowData :=
  (generateFlowData s).filter (fun f => f.toStage == "Production" && f.type != FlowType.energy)

/-- The end-of-life edges of the flow list: those into the Recycling,
Waste and Recycled Materials sinks. -/
def endOfLifeEdges (s : LCAScenario) : List FlowData :=
  (generateFlowData s).filter
    (fun f => f.toStage == "Recycling" || f.toStage == "Waste" || f.toStage == "Recycled Materials")

def flowSum (l : List FlowData) : ℚ := (l.map FlowData.value).sum

/-- The scenario with its quantity multiplied by k. -/
def scaleQuantity (s : LCAScenario) (k : ℚ) : LCAScenario :=
  { s with inputs := { s.inputs with quantity := k * s.inputs.quantity } }

/-- The scenario with its energy source replaced. -/
def setEnergySource (s : LCAScenario) (e : EnergySource) : LCAScenario :=
  { s with inputs := { s.inputs with energySource := e } }

/-- Stated from the words of claim C10: the preview as a constant table
over scenario type and material source only. -/
def impactPreviewTable (t : ScenarioType) (ms : MaterialSource) : ImpactPreview :=
  { recycledContent := if ms = .recycled then 85 else 0
    co2Reduction := if t = .circular then 65 else 0
    energySavings := if t = .circular then 45 else 0 }

-- Concrete configurations used by the claims

/-- The worked example of the spec: aluminum, primary, grid, 500 km,
landfill, 1000 kg. -/
def c1Example : LCAScenario :=
  { name := "Conventional (Linear)", type := .conventional,
    inputs := { metal := .aluminum, materialSource := .primary, energySource := .grid,
                transportMode := .truck, transportDistance := 500, endOfLife := .landfill,
                quantity := 1000 } }

def c2Example : LCAScenario :=
  { name := "Circular Economy", type := .circular,
    inputs := { metal := .aluminum, materialSource := .primary, energySource := .grid,
                transportMode := .truck, transportDistance := 500, endOfLife := .recycling,
                quantity := 1000 } }

def c3Example : LCAScenario :=
  { name := "Circular Economy", type := .circular,
    inputs := { metal := .aluminum, materialSource := .recycled, energySource := .grid,
                transportMode := .truck, transportDistance := 0, endOfLife := .landfill,
                quantity := 1000 } }

def c4Example : LCAInputs :=
  { metal := .aluminum, materialSource := .primary, energySource := .grid,
    transportMode := .truck, transportDistance := 500, endOfLife := .recycling,
    quantity := 0 }

def c7Example : LCAScenario :=
  { name := "Conventional (Linear)", type := .conventional,
    inputs := { metal := .copper, materialSource := .primary, energySource := .grid,
                transportMode := .rail, transportDistance := 800, endOfLife := .landfill,
                quantity := 2000 } }

def c8Left : LCAScenario :=
  { name := "a", type := .conventional,
    inputs := { metal := .copper, materialSource := .recycled, energySource := .coal,
                transportMode := .truck, transportDistance := 100, endOfLife := .landfill,
                quantity := 3000 } }

def c8Right : LCAScenario :=
  { name := "b", type := .circular,
    inputs := { metal := .copper, materialSource := .recycled, energySource := .renewables,
                transportMode := .ship, transportDistance := 4000, endOfLife := .recycling,
                quantity := 3000 } }

-- Helper lemmas

theorem round2_mono {x y : ℚ} (h : x ≤ y) : round2 x ≤ round2 y := by
  unfold round2 jsRound
  have hf : (⌊x * 100 + 1/2⌋ : ℤ) ≤ ⌊y * 100 + 1/2⌋ := Int.floor_mono (by linarith)
  have hc : ((⌊x * 100 + 1/2⌋ : ℤ) : ℚ) ≤ ((⌊y * 100 + 1/2⌋ : ℤ) : ℚ) := by exact_mod_cast hf
  linarith

theorem updateInputErrors_clears (errors : FieldErrors) :
    (updateInputErrors errors InputField.quantity).quantity = "" ∧
    (updateInputErrors errors InputField.transportDistance).transportDistance = "" := by
  constructor <;> (simp only [updateInputErrors]; split <;> simp_all)


-- Claim theorems

/-- Claim C1: for every input configuration the KPI calculator returns
co2FootprintKg equal to (base co2 times the combined material-source and
energy-source multiplier, plus transport distance times 0.0001) times the
end-of-life factor (0.8 recycling, 1.0 landfill) times quantity over 1000,
rounded to 2 decimals; for aluminum, primary, grid, 500 km, landfill,
1000 kg it returns exactly 11.95. -/
theorem kpi_co2_formula :
    (∀ s : LCAScenario,
      (calculateKPIs s).co2Footprint =
        round2 (((baseValues s.inputs.metal).co2 *
            (sourceCo2Multiplier s.inputs.materialSource * energyFactors s.inputs.energySource) +
            s.inputs.transportDistance * 0.0001) *
          endOfLifeFactor s.inputs.endOfLife * s.inputs.quantity / 1000)) ∧
    (calculateKPIs c1Example).co2Footprint = 11.95 := by
  constructor
  · intro s
    obtain ⟨n, t, m, ms, es, tm, d, e, q⟩ := s
    cases ms <;> cases e <;>
      simp [calculateKPIs, calculateRawKPIs, sourceCo2Multiplier, endOfLifeFactor,
        round2, jsRound]
  · simp [calculateKPIs, calculateRawKPIs, round2, jsRound, baseValues, energyFactors,
      c1Example]
    norm_num

/-- Claim C2, counterexample: at the concrete recycling configuration with
quantity 1000 kg, no flow edge out of Recycling carries the value
0.85 times 0.9 times quantity over 1000 claimed by the spec; the actual
edge carries 0.85 times the base quantity. -/
theorem recycling_output_edge_counterexample :
    ¬ ∃ f ∈ generateFlowData c2Example,
        f.fromStage = "Recycling" ∧ f.toStage = "Recycled Materials" ∧
        f.value = 0.85 * (0.9 * (1000 / 1000)) := by
  simp [generateFlowData, c2Example]
  norm_num

/-- Claim C2, amended: with endOfLife recycling the flow list routes 90
percent of the use-phase mass to Recycling and 10 percent to Waste, and
the Recycling to Recycled Materials edge carries 85 percent of the base
quantity (not 85 percent of the 90 percent routed to Recycling); with
landfill, 100 percent of the use-phase mass goes to Waste. -/
theorem end_of_life_edges_spec :
    ∀ s : LCAScenario,
      endOfLifeEdges s =
        (if s.inputs.endOfLife = .recycling then
          [{ fromStage := "Use Phase", toStage := "Recycling",
             value := s.inputs.quantity / 1000 * 0.9, type := .circular },
           { fromStage := "Use Phase", toStage := "Waste",
             value := s.inputs.quantity / 1000 * 0.1, type := .waste },
           { fromStage := "Recycling", toStage := "Recycled Materials",
             value := s.inputs.quantity / 1000 * 0.85, type := .circular }]
        else
          [{ fromStage := "Use Phase", toStage := "Waste",
             value := s.inputs.quantity / 1000, type := .waste }]) := by
  intro s
  obtain ⟨n, t, m, ms, es, tm, d, e, q⟩ := s
  cases ms <;> cases e <;>
    simp [endOfLifeEdges, generateFlowData, List.filter]

/-- Claim C3, counterexample: the rounded outputs do not scale exactly
with quantity: doubling a 1000 kg recycled-aluminum configuration yields
a co2 footprint of 3.57, not twice the 1.79 of the original. -/
theorem rounding_breaks_linearity_counterexample :
    (calculateKPIs (scaleQuantity c3Example 2)).co2Footprint ≠
      2 * (calculateKPIs c3Example).co2Footprint := by
  simp [calculateKPIs, calculateRawKPIs, round2, jsRound, baseValues, energyFactors,
    scaleQuantity, c3Example]
  norm_num

/-- Claim C3, amended: for every configuration with positive quantity and
every factor k, the pre-rounding co2, energy and water values scale by k
when the quantity is multiplied by k; the final rounding to 2 decimals is
what breaks exact linearity of the returned outputs. -/
theorem raw_kpis_linear_in_quantity (s : LCAScenario) (k : ℚ)
    (hq : 0 < s.inputs.quantity) :
    (calculateRawKPIs (scaleQuantity s k)).co2Footprint = k * (calculateRawKPIs s).co2Footprint ∧
    (calculateRawKPIs (scaleQuantity s k)).energyUse = k * (calculateRawKPIs s).energyUse ∧
    (calculateRawKPIs (scaleQuantity s k)).waterUse = k * (calculateRawKPIs s).waterUse := by
  simp only [calculateRawKPIs, scaleQuantity]
  refine ⟨by ring, by ring, by ring⟩

theorem raw_kpis_linear_in_quantity_witness :
    0 < c3Example.inputs.quantity ∧
    ((calculateRawKPIs (scaleQuantity c3Example 2)).co2Footprint =
        2 * (calculateRawKPIs c3Example).co2Footprint ∧
      (calculateRawKPIs (scaleQuantity c3Example 2)).energyUse =
        2 * (calculateRawKPIs c3Example).energyUse ∧
      (calculateRawKPIs (scaleQuantity c3Example 2)).waterUse =
        2 * (calculateRawKPIs c3Example).waterUse) :=
  ⟨by norm_num [c3Example], raw_kpis_linear_in_quantity c3Example 2 (by norm_num [c3Example])⟩

/-- Claim C4: submitting with quantity at most 0, or transport distance
negative, or transport distance above 10000, does not invoke the run
callback and populates the corresponding inline field error, and editing
the offending field clears its error message. -/
theorem validation_blocks_run (i : LCAInputs)
    (h : i.quantity ≤ 0 ∨ i.transportDistance < 0 ∨ 10000 < i.transportDistance) :
    (handleSubmit i).1 = false ∧
    (i.quantity ≤ 0 → (validateInputs i).quantity = "Quantity must be greater than 0") ∧
    (i.transportDistance < 0 →
      (validateInputs i).transportDistance = "Distance cannot be negative") ∧
    (10000 < i.transportDistance →
      (validateInputs i).transportDistance = "Distance seems unrealistic (>10,000 km)") ∧
    (updateInputErrors (validateInputs i) InputField.quantity).quantity = "" ∧
    (updateInputErrors (validateInputs i) InputField.transportDistance).transportDistance = "" := by
  refine ⟨?_, ?_, ?_, ?_, (updateInputErrors_clears _).1, (updateInputErrors_clears _).2⟩
  · rcases h with h | h | h
    · simp [handleSubmit, validationPasses, validateInputs, h]
    · have h2 : ¬ (10000 : ℚ) < i.transportDistance := by linarith
      simp [handleSubmit, validationPasses, validateInputs, h, h2]
    · simp [handleSubmit, validationPasses, validateInputs, h]
  · intro hq
    simp [validateInputs, hq]
  · intro hd
    have h2 : ¬ (10000 : ℚ) < i.transportDistance := by linarith
    simp [validateInputs, hd, h2]
  · intro hd
    simp [validateInputs, hd]

theorem validation_blocks_run_witness :
    (c4Example.quantity ≤ 0 ∨ c4Example.transportDistance < 0 ∨
      10000 < c4Example.transportDistance) ∧
    ((handleSubmit c4Example).1 = false ∧
     (c4Example.quantity ≤ 0 →
       (validateInputs c4Example).quantity = "Quantity must be greater than 0") ∧
     (c4Example.transportDistance < 0 →
       (validateInputs c4Example).transportDistance = "Distance cannot be negative") ∧
     (10000 < c4Example.transportDistance →
       (validateInputs c4Example).transportDistance = "Distance seems unrealistic (>10,000 km)") ∧
     (updateInputErrors (validateInputs c4Example) InputField.quantity).quantity = "" ∧
     (updateInputErrors (validateInputs c4Example) InputField.transportDistance).transportDistance = "") :=
  ⟨Or.inl (by norm_num [c4Example]),
   validation_blocks_run c4Example (Or.inl (by norm_num [c4Example]))⟩

/-- Claim C5: recycledContent is 85 exactly for recycled material source
and 0 for primary, costSavings is 1250 exactly for recycled and 0 for
primary, and circularityIndex is 75 exactly for circular scenarios and 25
otherwise, independent of every other input. -/
theorem constant_kpi_outputs :
    ∀ s : LCAScenario,
      (calculateKPIs s).recycledContent =
        (if s.inputs.materialSource = .recycled then 85 else 0) ∧
      (calculateKPIs s).costSavings =
        (if s.inputs.materialSource = .recycled then 1250 else 0) ∧
      (calculateKPIs s).circularityIndex = (if s.type = .circular then 75 else 25) := by
  intro s
  exact ⟨rfl, rfl, rfl⟩

/-- Claim C6: the material input edges sum to quantity over 1000 tons;
primary source gives a single Raw Materials edge with 100 percent of the
base quantity, recycled source gives an 85 percent Recycled Materials
edge and a 15 percent Raw Materials edge. -/
theorem material_input_edges_spec :
    ∀ s : LCAScenario,
      flowSum (materialInputEdges s) = s.inputs.quantity / 1000 ∧
      materialInputEdges s =
        (if s.inputs.materialSource = .primary then
          [{ fromStage := "Raw Materials", toStage := "Production",
             value := s.inputs.quantity / 1000, type := .primary }]
        else
          [{ fromStage := "Recycled Materials", toStage := "Production",
             value := s.inputs.quantity / 1000 * 0.85, type := .recycled },
           { fromStage := "Raw Materials", toStage := "Production",
             value := s.inputs.quantity / 1000 * 0.15, type := .primary }]) := by
  intro s
  obtain ⟨n, t, m, ms, es, tm, d, e, q⟩ := s
  have h1 : (FlowType.primary != FlowType.energy) = true := rfl
  have h2 : (FlowType.recycled != FlowType.energy) = true := rfl
  have h3 : (FlowType.energy != FlowType.energy) = false := rfl
  cases ms <;> cases e <;>
    (constructor
     · simp [materialInputEdges, generateFlowData, flowSum, List.filter, h1, h2, h3]
       try ring
     · simp [materialInputEdges, generateFlowData, List.filter, h1, h2, h3])

/-- Claim C7: for fixed other inputs with positive quantity, renewables
has the least co2 multiplier of the three energy sources, 0.1, and gives
a co2 footprint no larger than any other energy source. -/
theorem renewables_minimize_co2 (s : LCAScenario) (e : EnergySource)
    (hq : 0 < s.inputs.quantity) :
    energyFactors .renewables = 0.1 ∧
    energyFactors .renewables ≤ energyFactors e ∧
    (calculateKPIs (setEnergySource s .renewables)).co2Footprint ≤
      (calculateKPIs (setEnergySource s e)).co2Footprint := by
  refine ⟨rfl, ?_, ?_⟩
  · cases e <;> norm_num [energyFactors]
  · apply round2_mono
    obtain ⟨n, t, m, ms, es, tm, d, eol, q⟩ := s
    simp only [setEnergySource, calculateRawKPIs] at *
    cases e <;> cases m <;> cases ms <;> cases eol <;>
      simp [energyFactors, baseValues]
    all_goals nlinarith [hq]

theorem renewables_minimize_co2_witness :
    0 < c7Example.inputs.quantity ∧
    (energyFactors .renewables = 0.1 ∧
      energyFactors .renewables ≤ energyFactors .coal ∧
      (calculateKPIs (setEnergySource c7Example .renewables)).co2Footprint ≤
        (calculateKPIs (setEnergySource c7Example .coal)).co2Footprint) :=
  ⟨by norm_num [c7Example],
   renewables_minimize_co2 c7Example .coal (by norm_num [c7Example])⟩

/-- Claim C8: two configurations agreeing on metal, material source and
quantity get the same energyUse and the same waterUse, whatever their
energy source, transport distance, end of life, transport mode, name or
scenario type. -/
theorem energy_water_depend_only_on_metal_source_quantity (s1 s2 : LCAScenario)
    (hm : s1.inputs.metal = s2.inputs.metal)
    (hs : s1.inputs.materialSource = s2.inputs.materialSource)
    (hq : s1.inputs.quantity = s2.inputs.quantity) :
    (calculateKPIs s1).energyUse = (calculateKPIs s2).energyUse ∧
    (calculateKPIs s1).waterUse = (calculateKPIs s2).waterUse := by
  simp only [calculateKPIs, calculateRawKPIs]
  rw [hm, hs, hq]
  exact ⟨rfl, rfl⟩

theorem energy_water_noninterference_witness :
    (c8Left.inputs.metal = c8Right.inputs.metal ∧
      c8Left.inputs.materialSource = c8Right.inputs.materialSource ∧
      c8Left.inputs.quantity = c8Right.inputs.quantity) ∧
    ((calculateKPIs c8Left).energyUse = (calculateKPIs c8Right).energyUse ∧
      (calculateKPIs c8Left).waterUse = (calculateKPIs c8Right).waterUse) :=
  ⟨⟨rfl, rfl, rfl⟩,
   energy_water_depend_only_on_metal_source_quantity c8Left c8Right rfl rfl rfl⟩

/-- Claim C9: from the idle panel the trigger shows the generating view,
the completed run reaches the generated view on the success path and the
failure path alike, the two paths end in identical states, and the
generate-new-report action returns the panel to idle; the view type of
the component has no error state at all. -/
theorem report_panel_state_machine :
    ∀ fetchSucceeds : Bool,
      reportView (startGenerateReport initialReportState) = .generating ∧
      reportView (runGenerateReport fetchSucceeds initialReportState) = .generated ∧
      runGenerateReport fetchSucceeds initialReportState =
        runGenerateReport true initialReportState ∧
      reportView (generateNewReport (runGenerateReport fetchSucceeds initialReportState)) = .idle := by
  intro ok
  cases ok <;> exact ⟨rfl, rfl, rfl, rfl⟩

/-- Claim C10: the impact preview of the scenario selector equals a
constant table indexed only by scenario type and material source: a
circular scenario shows 65 percent co2 reduction and 45 percent energy
savings, a conventional one 0 and 0, and the previewed recycled content
is 85 exactly for recycled material source and 0 otherwise. -/
theorem impact_preview_constant :
    ∀ s : LCAScenario, getImpactPreview s = impactPreviewTable s.type s.inputs.materialSource := by
  intro s
  rfl
